import Mathlib

/-!
# JOCL native conversions (`src/main/native/ConversionsCL.hpp`)

A shallow embedding of the four generic conversion templates

* `initNativeGenericFixedSize` / `releaseNativeGenericFixedSize`
* `initNativeGenericNativePointerObject` / `releaseNativeGenericNativePointerObject`

together with the small part of the JNI environment they talk to.

Modelling decisions.

* A native pointer `NativeType* &` is an `Option (List _)`: `none` is `nullptr`,
  `some buf` points to a live array whose elements are `buf`.
* A Java primitive array reference is an `Option (List _)` as well: `none` is the
  `null` reference, `some arr` an array with contents `arr`.  The functions return the
  contents the array has after the call.
* `std::memcpy` copies object representations.  The templates require
  `sizeof(JavaType) == sizeof(NativeType)`, so an element is modelled by its
  representation, one type `α` for both sides.
* A Java object array is a `List (Option Nat)`: every element is `null` (`none`) or a
  reference to the object with the given identity.  The same object may occur at
  several indices.  The `NativePointerObject_nativePointer` field of every object is
  kept in the environment.
* Undefined behaviour (a `memcpy` through a null pointer or past the end of the native
  array, an indexed access past the end of the native array) is the result `none`.
* The calls a function makes (allocation, deletion, critical view, `memcpy`, element
  and field access, `ThrowByName`) are recorded in `JNIEnv.log`, oldest first.  The
  query `GetArrayLength`, which reads the length and no element, is not recorded.
* Java arrays hold fewer than `2^31` elements, so `size_t(length)` and
  `length * sizeof(JavaType)` do not wrap and lengths are plain natural numbers.
-/

set_option linter.unusedVariables false

namespace JOCL

/-- A Java exception as raised through JNI: class name and message. -/
structure JThrowable where
  className : String
  message : String
deriving DecidableEq, Repr

/-- The calls the conversion functions make, as recorded in the log. -/
inductive Event where
  /-- The expression `new NativeType[size_t(length)]` and whether it gave an array. -/
  | newArray (length : Nat) (ok : Bool)
  /-- The statement `delete[]` on a pointer that is not null. -/
  | deleteArray
  /-- The call `GetPrimitiveArrayCritical` and whether it gave a view. -/
  | getPrimitiveArrayCritical (ok : Bool)
  /-- The call `ReleasePrimitiveArrayCritical` with its mode. -/
  | releasePrimitiveArrayCritical (mode : Nat)
  /-- The call `std::memcpy(nativeObject, primitiveArray, count * sizeof(JavaType))`. -/
  | memcpyIntoNative (count : Nat)
  /-- The call `GetObjectArrayElement(objects, i)`. -/
  | getObjectArrayElement (i : Nat)
  /-- The call `GetLongField(object, NativePointerObject_nativePointer)`. -/
  | getLongField (object : Nat)
  /-- The call `SetLongField(object, NativePointerObject_nativePointer, value)`. -/
  | setLongField (object : Nat) (value : Int)
  /-- A store `objects_native[i] = ...`. -/
  | nativeStore (i : Nat)
  /-- A load of `objects_native[i]`. -/
  | nativeLoad (i : Nat)
  /-- The call `ThrowByName(env, className, message)`. -/
  | throwByName (className message : String)
deriving DecidableEq, Repr

/-- The JNI environment as far as the conversions see it. -/
structure JNIEnv where
  /-- The pending exception, if any. -/
  pending : Option JThrowable
  /-- The `NativePointerObject_nativePointer` field (a `jlong`) of every object. -/
  nativePointer : Nat → Int
  /-- Whether `new NativeType[...]` gives an array (otherwise it gives `nullptr`). -/
  newSucceeds : Bool
  /-- Whether `GetPrimitiveArrayCritical` gives a view (otherwise it gives `nullptr`). -/
  criticalSucceeds : Bool
  /-- The calls made so far, oldest first. -/
  log : List Event

/-- The release mode `JNI_ABORT` of `jni.h`: free the view, do not copy back. -/
def JNI_ABORT : Nat := 2

/-- Append one call to the log. -/
def JNIEnv.record (env : JNIEnv) (e : Event) : JNIEnv :=
  { env with log := env.log ++ [e] }

/-- Modelled from the spec: `ThrowByName` of `JNIUtils.hpp`, which is not part of the
sources at hand.  The spec calls it the error signaling primitive, which raises a named
error condition (category name and message) observable by the caller: the exception
becomes the pending one. -/
def ThrowByName (env : JNIEnv) (className message : String) : JNIEnv :=
  { env with
    pending := some ⟨className, message⟩
    log := env.log ++ [Event.throwByName className message] }

/-- The JNI call `ExceptionCheck`: whether an exception is pending. -/
def ExceptionCheck (env : JNIEnv) : Bool :=
  env.pending.isSome

/-- The expression `new NativeType[size_t(length)]`: a fresh array of `length` elements
with indeterminate contents `uninit 0, uninit 1, ...`, or `nullptr`. -/
def newArray {α : Type} (uninit : Nat → α) (env : JNIEnv) (length : Nat) :
    Option (List α) :=
  if env.newSucceeds then some ((List.range length).map uninit) else none

/-- The statements `delete[] p; p = nullptr;`.  Deleting `nullptr` does nothing. -/
def deleteArray {α : Type} (env : JNIEnv) (p : Option (List α)) : JNIEnv :=
  match p with
  | none => env
  | some _ => env.record Event.deleteArray

/-- The JNI call `GetPrimitiveArrayCritical(javaObject, nullptr)`: a view of the
contents, or `nullptr`. -/
def GetPrimitiveArrayCritical {α : Type} (env : JNIEnv) (arr : List α) :
    Option (List α) :=
  if env.criticalSucceeds then some arr else none

/-- The JNI call `ReleasePrimitiveArrayCritical(javaObject, primitiveArray, mode)`:
the contents of the Java array afterwards.  Mode `0` commits the view, `JNI_ABORT`
leaves the array as it is. -/
def ReleasePrimitiveArrayCritical {α : Type} (arr view : List α) (mode : Nat) :
    List α :=
  if mode = JNI_ABORT then arr else view

/-- The call `std::memcpy(dst, src, count * sizeof(JavaType))`: the first `count`
elements of `dst` become those of `src`.  A null destination, or fewer than `count`
elements on either side, is undefined behaviour. -/
def memcpy {α : Type} (dst : Option (List α)) (src : List α) (count : Nat) :
    Option (List α) :=
  match dst with
  | none => none
  | some buf =>
    if count ≤ buf.length ∧ count ≤ src.length then
      some (src.take count ++ buf.drop count)
    else none

/-- What a fixed-size conversion leaves behind: the returned flag, the environment,
the native pointer and the contents of the Java array. -/
structure FixedSizeResult (α : Type) where
  ret : Bool
  env : JNIEnv
  nativeObject : Option (List α)
  javaObject : Option (List α)

/-- What a handle-array conversion leaves behind: the returned flag, the environment
(with the objects and their handle fields) and the native pointer. -/
structure PointerObjectResult (H : Type) where
  ret : Bool
  env : JNIEnv
  objects_native : Option (List H)

/-- The template `initNativeGenericFixedSize` (lines 54-85).  `nativeObject` is the
value the reference parameter holds on entry. -/
def initNativeGenericFixedSize {α : Type} (uninit : Nat → α) (env : JNIEnv)
    (javaObject : Option (List α)) (nativeObject : Option (List α)) (fill : Bool) :
    Option (FixedSizeResult α) :=
  match javaObject with
  | none => some ⟨true, env, none, none⟩
  | some arr =>
    let length := arr.length
    let nativeObject := newArray uninit env length
    let env := env.record (Event.newArray length env.newSucceeds)
    match nativeObject with
    | none =>
      some ⟨false,
        ThrowByName env "java/lang/OutOfMemoryError" "Out of memory during array creation",
        none, some arr⟩
    | some buf =>
      if fill then
        let primitiveArray := GetPrimitiveArrayCritical env arr
        let env := env.record (Event.getPrimitiveArrayCritical env.criticalSucceeds)
        match primitiveArray with
        | none => some ⟨false, deleteArray env (some buf), none, some arr⟩
        | some view =>
          match memcpy (some buf) view length with
          | none => none
          | some buf =>
            let env := env.record (Event.memcpyIntoNative length)
            let arr := ReleasePrimitiveArrayCritical arr view JNI_ABORT
            let env := env.record (Event.releasePrimitiveArrayCritical JNI_ABORT)
            some ⟨true, env, some buf, some arr⟩
      else some ⟨true, env, some buf, some arr⟩

/-- The template `releaseNativeGenericFixedSize` (lines 117-144). -/
def releaseNativeGenericFixedSize {α : Type} (env : JNIEnv)
    (nativeObject : Option (List α)) (javaObject : Option (List α)) (writeBack : Bool) :
    Option (FixedSizeResult α) :=
  match javaObject with
  | none => some ⟨true, deleteArray env nativeObject, none, none⟩
  | some arr =>
    if writeBack then
      let length := arr.length
      let primitiveArray := GetPrimitiveArrayCritical env arr
      let env := env.record (Event.getPrimitiveArrayCritical env.criticalSucceeds)
      match primitiveArray with
      | none => some ⟨false, deleteArray env nativeObject, none, some arr⟩
      | some view =>
        match memcpy nativeObject view length with
        | none => none
        | some buf =>
          let env := env.record (Event.memcpyIntoNative length)
          let arr := ReleasePrimitiveArrayCritical arr view 0
          let env := env.record (Event.releasePrimitiveArrayCritical 0)
          some ⟨true, deleteArray env (some buf), none, some arr⟩
    else some ⟨true, deleteArray env nativeObject, none, some arr⟩

/-- The JNI call `GetObjectArrayElement(objects, i)` for an index below the length:
the element, `none` for `null`. -/
def GetObjectArrayElement (objects : List (Option Nat)) (i : Nat) : Option Nat :=
  objects.getD i none

/-- The JNI call `SetLongField(object, NativePointerObject_nativePointer, value)`. -/
def SetLongField (env : JNIEnv) (object : Nat) (value : Int) : JNIEnv :=
  { env with
    nativePointer := Function.update env.nativePointer object value
    log := env.log ++ [Event.setLongField object value] }

/-- The loop `for (jsize i = 0; i < length; i++)` of
`initNativeGenericNativePointerObject` (lines 198-217) from index `i` on, followed by
the final `return true`.  The first argument bounds the number of rounds; `toNative` is
the cast `(NativeType)` of a `jlong`. -/
def initFillLoop {H : Type} (toNative : Int → H) (objects : List (Option Nat)) :
    Nat → Nat → JNIEnv → List H → Option (PointerObjectResult H)
  | 0, i, env, buf =>
    if i < objects.length then none else some ⟨true, env, some buf⟩
  | fuel + 1, i, env, buf =>
    if i < objects.length then
      let object := GetObjectArrayElement objects i
      let env := env.record (Event.getObjectArrayElement i)
      if ExceptionCheck env then
        some ⟨false, deleteArray env (some buf), none⟩
      else
        match object with
        | none =>
          some ⟨false,
            ThrowByName (deleteArray env (some buf))
              "java/lang/NullPointerException" "Array contains 'null' elements",
            none⟩
        | some o =>
          let value := toNative (env.nativePointer o)
          let env := env.record (Event.getLongField o)
          if i < buf.length then
            initFillLoop toNative objects fuel (i + 1)
              (env.record (Event.nativeStore i)) (buf.set i value)
          else none
    else some ⟨true, env, some buf⟩

/-- The template `initNativeGenericNativePointerObject` (lines 177-220).
`objects_native` is the value the reference parameter holds on entry. -/
def initNativeGenericNativePointerObject {H : Type} (toNative : Int → H)
    (uninit : Nat → H) (env : JNIEnv) (objects : Option (List (Option Nat)))
    (objects_native : Option (List H)) (fill : Bool) :
    Option (PointerObjectResult H) :=
  match objects with
  | none => some ⟨true, env, none⟩
  | some objs =>
    let length := objs.length
    let objects_native := newArray uninit env length
    let env := env.record (Event.newArray length env.newSucceeds)
    match objects_native with
    | none =>
      some ⟨false,
        ThrowByName env "java/lang/OutOfMemoryError" "Out of memory during array creation",
        none⟩
    | some buf =>
      if fill then initFillLoop toNative objs length 0 env buf
      else some ⟨true, env, some buf⟩

/-- The loop `for (jsize i = 0; i < length; i++)` of
`releaseNativeGenericNativePointerObject` (lines 254-272) from index `i` on, followed
by the final `delete[] objects_native; objects_native = nullptr; return true;`.  The
first argument bounds the number of rounds; `toJlong` is the cast `(jlong)` of a native
handle. -/
def releaseWriteBackLoop {H : Type} (toJlong : H → Int) (objects : List (Option Nat))
    (buf : List H) : Nat → Nat → JNIEnv → Option (PointerObjectResult H)
  | 0, i, env =>
    if i < objects.length then none else some ⟨true, deleteArray env (some buf), none⟩
  | fuel + 1, i, env =>
    if i < objects.length then
      let object := GetObjectArrayElement objects i
      let env := env.record (Event.getObjectArrayElement i)
      if ExceptionCheck env then
        some ⟨false, deleteArray env (some buf), none⟩
      else
        match object with
        | none =>
          some ⟨false,
            ThrowByName (deleteArray env (some buf))
              "java/lang/NullPointerException" "Array contains 'null' elements",
            none⟩
        | some o =>
          match buf[i]? with
          | none => none
          | some h =>
            releaseWriteBackLoop toJlong objects buf fuel (i + 1)
              (SetLongField (env.record (Event.nativeLoad i)) o (toJlong h))
    else some ⟨true, deleteArray env (some buf), none⟩

/-- The template `releaseNativeGenericNativePointerObject` (lines 235-277). -/
def releaseNativeGenericNativePointerObject {H : Type} (toJlong : H → Int)
    (env : JNIEnv) (objects_native : Option (List H))
    (objects : Option (List (Option Nat))) (writeBack : Bool) :
    Option (PointerObjectResult H) :=
  match objects_native with
  | none => some ⟨true, env, none⟩
  | some buf =>
    match objects with
    | none =>
      some ⟨false,
        ThrowByName (deleteArray env (some buf))
          "java/lang/NullPointerException" "Trying to write to 'null' array",
        none⟩
    | some objs =>
      let length := objs.length
      if writeBack then releaseWriteBackLoop toJlong objs buf length 0 env
      else some ⟨true, deleteArray env (some buf), none⟩

/-- How many arrays the log says were allocated. -/
def allocations (log : List Event) : Nat :=
  log.countP (fun e => match e with
    | Event.newArray _ true => true
    | _ => false)

/-- How many arrays the log says were deleted. -/
def deallocations (log : List Event) : Nat :=
  log.countP (fun e => e = Event.deleteArray)

/-- How many times the log says `ThrowByName` was called. -/
def throws (log : List Event) : Nat :=
  log.countP (fun e => match e with
    | Event.throwByName _ _ => true
    | _ => false)

/-- An environment with nothing pending and nothing logged, the given handle fields,
and an allocator and a JVM that give what they are asked for. -/
def JNIEnv.fresh (field : Nat → Int) : JNIEnv :=
  ⟨none, field, true, true, []⟩

/-- The exception thrown for a `null` element of an object array. -/
def nullElement : JThrowable :=
  ⟨"java/lang/NullPointerException", "Array contains 'null' elements"⟩

/-! ## Counting in logs -/

theorem allocations_append (a b : List Event) :
    allocations (a ++ b) = allocations a + allocations b := by
  simp [allocations, List.countP_append]

theorem deallocations_append (a b : List Event) :
    deallocations (a ++ b) = deallocations a + deallocations b := by
  simp [deallocations, List.countP_append]

theorem throws_append (a b : List Event) :
    throws (a ++ b) = throws a + throws b := by
  simp [throws, List.countP_append]

/-! ## One round of each loop -/

theorem GetObjectArrayElement_eq (objects : List (Option Nat)) (i : Nat) (x : Option Nat)
    (h : objects[i]? = some x) : GetObjectArrayElement objects i = x := by
  simp [GetObjectArrayElement, List.getD_eq_getElem?_getD, h]

theorem initFillLoop_exit {H : Type} (toNative : Int → H) (objs : List (Option Nat))
    (fuel i : Nat) (env : JNIEnv) (buf : List H) (h : ¬ i < objs.length) :
    initFillLoop toNative objs fuel i env buf = some ⟨true, env, some buf⟩ := by
  cases fuel <;> simp [initFillLoop, h]

theorem initFillLoop_absent {H : Type} (toNative : Int → H) (objs : List (Option Nat))
    (fuel i : Nat) (env : JNIEnv) (buf : List H) (h : i < objs.length)
    (hp : env.pending = none) (ho : objs[i]? = some none) :
    initFillLoop toNative objs (fuel + 1) i env buf =
      some ⟨false,
        ThrowByName (deleteArray (env.record (Event.getObjectArrayElement i)) (some buf))
          "java/lang/NullPointerException" "Array contains 'null' elements",
        none⟩ := by
  simp [initFillLoop, h, ExceptionCheck, JNIEnv.record, hp,
    GetObjectArrayElement_eq objs i none ho]

theorem initFillLoop_present {H : Type} (toNative : Int → H) (objs : List (Option Nat))
    (fuel i : Nat) (env : JNIEnv) (buf : List H) (o : Nat) (h : i < objs.length)
    (hp : env.pending = none) (ho : objs[i]? = some (some o)) (hb : i < buf.length) :
    initFillLoop toNative objs (fuel + 1) i env buf =
      initFillLoop toNative objs fuel (i + 1)
        (((env.record (Event.getObjectArrayElement i)).record (Event.getLongField o)).record
          (Event.nativeStore i))
        (buf.set i (toNative (env.nativePointer o))) := by
  simp [initFillLoop, h, ExceptionCheck, JNIEnv.record, hp, hb,
    GetObjectArrayElement_eq objs i (some o) ho]

theorem releaseWriteBackLoop_exit {H : Type} (toJlong : H → Int)
    (objs : List (Option Nat)) (buf : List H) (fuel i : Nat) (env : JNIEnv)
    (h : ¬ i < objs.length) :
    releaseWriteBackLoop toJlong objs buf fuel i env =
      some ⟨true, deleteArray env (some buf), none⟩ := by
  cases fuel <;> simp [releaseWriteBackLoop, h]

theorem releaseWriteBackLoop_absent {H : Type} (toJlong : H → Int)
    (objs : List (Option Nat)) (buf : List H) (fuel i : Nat) (env : JNIEnv)
    (h : i < objs.length) (hp : env.pending = none) (ho : objs[i]? = some none) :
    releaseWriteBackLoop toJlong objs buf (fuel + 1) i env =
      some ⟨false,
        ThrowByName (deleteArray (env.record (Event.getObjectArrayElement i)) (some buf))
          "java/lang/NullPointerException" "Array contains 'null' elements",
        none⟩ := by
  simp [releaseWriteBackLoop, h, ExceptionCheck, JNIEnv.record, hp,
    GetObjectArrayElement_eq objs i none ho]

theorem releaseWriteBackLoop_present {H : Type} (toJlong : H → Int)
    (objs : List (Option Nat)) (buf : List H) (fuel i : Nat) (env : JNIEnv) (o : Nat)
    (v : H) (h : i < objs.length) (hp : env.pending = none)
    (ho : objs[i]? = some (some o)) (hb : buf[i]? = some v) :
    releaseWriteBackLoop toJlong objs buf (fuel + 1) i env =
      releaseWriteBackLoop toJlong objs buf fuel (i + 1)
        (SetLongField ((env.record (Event.getObjectArrayElement i)).record
          (Event.nativeLoad i)) o (toJlong v)) := by
  simp [releaseWriteBackLoop, h, ExceptionCheck, JNIEnv.record, hp, hb,
    GetObjectArrayElement_eq objs i (some o) ho]

/-- An element below the length that is not `null` is a reference to some object. -/
theorem present_of_ne_null (objs : List (Option Nat)) (i : Nat) (h : i < objs.length)
    (hne : objs[i]? ≠ some none) : ∃ o, objs[i]? = some (some o) := by
  rw [List.getElem?_eq_getElem h] at hne ⊢
  cases hx : objs[i] with
  | none => simp [hx] at hne
  | some o => exact ⟨o, rfl⟩

/-! ## The loops as a whole

Both loops are described up to the index `k` at which they stop: `k` is the length of
the object array when no element is `null`, and the index of the first `null` element
otherwise. -/

theorem initFillLoop_spec {H : Type} (toNative : Int → H) (objs : List (Option Nat))
    (k : Nat) (hk : k ≤ objs.length) (hend : k = objs.length ∨ objs[k]? = some none) :
    ∀ (fuel i : Nat) (env : JNIEnv) (buf : List H),
      fuel + i = objs.length → i ≤ k → env.pending = none → buf.length = objs.length →
      (∀ j, i ≤ j → j < k → objs[j]? ≠ some none) →
      ∃ r evs, initFillLoop toNative objs fuel i env buf = some r ∧
        r.ret = decide (k = objs.length) ∧
        r.env.pending = (if k = objs.length then none else some nullElement) ∧
        r.env.nativePointer = env.nativePointer ∧
        r.env.log = env.log ++ evs ∧
        allocations evs = 0 ∧
        deallocations evs = (if k = objs.length then 0 else 1) ∧
        throws evs = (if k = objs.length then 0 else 1) ∧
        (k < objs.length → r.objects_native = none) ∧
        (k = objs.length → ∃ out, r.objects_native = some out ∧
          out.length = objs.length ∧
          (∀ j, j < i → out[j]? = buf[j]?) ∧
          (∀ j o, i ≤ j → objs[j]? = some (some o) →
            out[j]? = some (toNative (env.nativePointer o)))) := by
  intro fuel
  induction fuel with
  | zero =>
    intro i env buf hfi hik hp hlen hpres
    have hi : i = objs.length := by omega
    have hkn : k = objs.length := by omega
    refine ⟨_, [], initFillLoop_exit toNative objs 0 i env buf (by omega), ?_⟩
    simp [hkn, allocations, deallocations, throws, hlen, hp]
    intro j o hj ho
    have hnone : objs[j]? = none := List.getElem?_eq_none (by omega)
    rw [hnone] at ho
    cases ho
  | succ f ih =>
    intro i env buf hfi hik hp hlen hpres
    have hin : i < objs.length := by omega
    rcases Nat.lt_or_ge i k with hlt | hge
    · obtain ⟨o, ho⟩ := present_of_ne_null objs i hin (hpres i le_rfl hlt)
      rw [initFillLoop_present toNative objs f i env buf o hin hp ho (by omega)]
      obtain ⟨r, evs, hr, hret, hpend, hnp, hlog, ha, hd, ht, hfail, hok⟩ :=
        ih (i + 1)
          (((env.record (Event.getObjectArrayElement i)).record
            (Event.getLongField o)).record (Event.nativeStore i))
          (buf.set i (toNative (env.nativePointer o)))
          (by omega) (by omega) (by simpa [JNIEnv.record] using hp) (by simp [hlen])
          (fun j hj hjk => hpres j (by omega) hjk)
      refine ⟨r, [Event.getObjectArrayElement i, Event.getLongField o,
        Event.nativeStore i] ++ evs, hr, hret, hpend, ?_, ?_, ?_, ?_, ?_, hfail, ?_⟩
      · simpa [JNIEnv.record] using hnp
      · simpa [JNIEnv.record] using hlog
      · rw [allocations_append, ha]; simp [allocations]
      · rw [deallocations_append, hd]; simp [deallocations]
      · rw [throws_append, ht]; simp [throws]
      · intro hkn
        obtain ⟨out, hout, houtlen, hbefore, hafter⟩ := hok hkn
        refine ⟨out, hout, houtlen, ?_, ?_⟩
        · intro j hj
          rw [hbefore j (by omega), List.getElem?_set_ne (by omega)]
        · intro j o2 hj ho2
          rcases Nat.eq_or_lt_of_le hj with hji | hji
          · subst hji
            have hoo : o2 = o := by
              rw [ho] at ho2
              simpa using ho2.symm
            subst hoo
            rw [hbefore i (by omega), List.getElem?_set_self (by omega)]
          · simpa [JNIEnv.record] using hafter j o2 (by omega) ho2
    · have hki : k = i := by omega
      subst hki
      have hnone : objs[k]? = some none := by
        rcases hend with h | h
        · omega
        · exact h
      rw [initFillLoop_absent toNative objs f k env buf hin hp hnone]
      refine ⟨_, [Event.getObjectArrayElement k, Event.deleteArray,
        Event.throwByName "java/lang/NullPointerException"
          "Array contains 'null' elements"], rfl, ?_⟩
      have hne : k ≠ objs.length := by omega
      simp [hne, ThrowByName, deleteArray, JNIEnv.record, nullElement, allocations,
        deallocations, throws]

theorem releaseWriteBackLoop_spec {H : Type} (toJlong : H → Int)
    (objs : List (Option Nat)) (buf : List H) (k : Nat) (hlen : buf.length = objs.length)
    (hk : k ≤ objs.length) (hend : k = objs.length ∨ objs[k]? = some none) :
    ∀ (fuel i : Nat) (env : JNIEnv),
      fuel + i = objs.length → i ≤ k → env.pending = none →
      (∀ j, i ≤ j → j < k → objs[j]? ≠ some none) →
      ∃ r evs, releaseWriteBackLoop toJlong objs buf fuel i env = some r ∧
        r.ret = decide (k = objs.length) ∧
        r.env.pending = (if k = objs.length then none else some nullElement) ∧
        r.objects_native = none ∧
        r.env.log = env.log ++ evs ∧
        allocations evs = 0 ∧
        deallocations evs = 1 ∧
        throws evs = (if k = objs.length then 0 else 1) ∧
        (∀ j o v, i ≤ j → j < k → objs[j]? = some (some o) → buf[j]? = some v →
          Event.setLongField o (toJlong v) ∈ evs) ∧
        (∀ o, (∀ j, i ≤ j → j < k → objs[j]? ≠ some (some o)) →
          r.env.nativePointer o = env.nativePointer o) ∧
        (∀ j o v, i ≤ j → j < k → objs[j]? = some (some o) → buf[j]? = some v →
          (∀ j2, j < j2 → j2 < k → objs[j2]? ≠ some (some o)) →
          r.env.nativePointer o = toJlong v) := by
  intro fuel
  induction fuel with
  | zero =>
    intro i env hfi hik hp hpres
    have hi : i = objs.length := by omega
    have hkn : k = objs.length := by omega
    refine ⟨_, [Event.deleteArray],
      releaseWriteBackLoop_exit toJlong objs buf 0 i env (by omega), ?_⟩
    simp [hkn, allocations, deallocations, throws, hp, deleteArray, JNIEnv.record]
    constructor
    · intro j o v hj hjk
      omega
    · intro j o v hj hjk
      omega
  | succ f ih =>
    intro i env hfi hik hp hpres
    have hin : i < objs.length := by omega
    rcases Nat.lt_or_ge i k with hlt | hge
    · obtain ⟨o, ho⟩ := present_of_ne_null objs i hin (hpres i le_rfl hlt)
      have hib : i < buf.length := by omega
      have hv : buf[i]? = some buf[i] := List.getElem?_eq_getElem hib
      rw [releaseWriteBackLoop_present toJlong objs buf f i env o buf[i] hin hp ho hv]
      obtain ⟨r, evs, hr, hret, hpend, hnat, hlog, ha, hd, ht, hset, hkeep, hlast⟩ :=
        ih (i + 1)
          (SetLongField ((env.record (Event.getObjectArrayElement i)).record
            (Event.nativeLoad i)) o (toJlong buf[i]))
          (by omega) (by omega) (by simpa [SetLongField, JNIEnv.record] using hp)
          (fun j hj hjk => hpres j (by omega) hjk)
      refine ⟨r, [Event.getObjectArrayElement i, Event.nativeLoad i,
        Event.setLongField o (toJlong buf[i])] ++ evs, hr, hret, hpend, hnat,
        ?_, ?_, ?_, ?_, ?_, ?_, ?_⟩
      · simpa [SetLongField, JNIEnv.record] using hlog
      · rw [allocations_append, ha]; simp [allocations]
      · rw [deallocations_append, hd]; simp [deallocations]
      · rw [throws_append, ht]; simp [throws]
      · intro j o2 v hj hjk ho2 hv2
        rcases Nat.eq_or_lt_of_le hj with hji | hji
        · subst hji
          have hoo : o2 = o := by
            rw [ho] at ho2
            simpa using ho2.symm
          have hvv : v = buf[i] := by
            rw [hv] at hv2
            simpa using hv2.symm
          subst hoo hvv
          simp
        · have := hset j o2 v (by omega) hjk ho2 hv2
          simp [this]
      · intro o2 habs
        have hne : o2 ≠ o := by
          intro he
          subst he
          exact habs i le_rfl hlt ho
        rw [hkeep o2 (fun j hj hjk => habs j (by omega) hjk)]
        simp [SetLongField, JNIEnv.record, Function.update, hne]
      · intro j o2 v hj hjk ho2 hv2 hlater
        rcases Nat.eq_or_lt_of_le hj with hji | hji
        · subst hji
          have hoo : o2 = o := by
            rw [ho] at ho2
            simpa using ho2.symm
          have hvv : v = buf[i] := by
            rw [hv] at hv2
            simpa using hv2.symm
          subst hoo hvv
          rw [hkeep o2 (fun j2 hj2 hj2k => hlater j2 (by omega) hj2k)]
          simp [SetLongField, JNIEnv.record]
        · exact hlast j o2 v (by omega) hjk ho2 hv2 hlater
    · have hki : k = i := by omega
      subst hki
      have hnone : objs[k]? = some none := by
        rcases hend with h | h
        · omega
        · exact h
      rw [releaseWriteBackLoop_absent toJlong objs buf f k env hin hp hnone]
      refine ⟨_, [Event.getObjectArrayElement k, Event.deleteArray,
        Event.throwByName "java/lang/NullPointerException"
          "Array contains 'null' elements"], rfl, ?_⟩
      have hne : k ≠ objs.length := by omega
      simp [hne, ThrowByName, deleteArray, JNIEnv.record, nullElement, allocations,
        deallocations, throws]
      refine ⟨?_, ?_⟩
      · intro j o v hj hjk
        omega
      · intro j o v hj hjk
        omega

/-! ## Fixed-size primitive arrays -/

/-- C1 (evaluation at the failing input): Java array `[1,2,3]`, native array `[9,2,3]`,
`writeBack = true`.  The release returns `true` and leaves the native pointer absent,
but the `memcpy` runs from the Java view into the native array, so the Java array is
still `[1,2,3]` and not `[9,2,3]`. -/
theorem C1_release_writeBack_keeps_java_contents :
    (releaseNativeGenericFixedSize (JNIEnv.fresh (fun _ => 0))
        (some [(9 : Int), 2, 3]) (some [1, 2, 3]) true).map
      (fun r => (r.ret, r.nativeObject, r.javaObject, r.env.log))
    = some (true, none, some [1, 2, 3],
        [Event.getPrimitiveArrayCritical true, Event.memcpyIntoNative 3,
         Event.releasePrimitiveArrayCritical 0, Event.deleteArray]) := by
  decide

/-- A `memcpy` of a whole array over an array of the same length gives the source. -/
theorem memcpy_whole {α : Type} (buf src : List α) (h : buf.length = src.length) :
    memcpy (some buf) src src.length = some src := by
  have hd : buf.drop src.length = [] := List.drop_eq_nil_of_le (by omega)
  simp [memcpy, h, hd]

/-- C2: for a Java array `arr` that is not `null`, with the allocation succeeding and
the critical view obtainable, `initNativeGenericFixedSize` with `fill = true` returns
`true`, raises nothing (no `ThrowByName`, the pending exception as before), gives a
native array of length `arr.length` whose element `i` is `arr[i]` for every index, and
leaves the contents of the Java array as they were. -/
theorem C2_init_fill_copies_java_contents {α : Type} (uninit : Nat → α) (env : JNIEnv)
    (arr : List α) (nativeObject : Option (List α))
    (hnew : env.newSucceeds = true) (hcrit : env.criticalSucceeds = true) :
    ∃ r buf, initNativeGenericFixedSize uninit env (some arr) nativeObject true = some r ∧
      r.ret = true ∧
      r.env.pending = env.pending ∧
      r.env.log = env.log ++
        [Event.newArray arr.length true, Event.getPrimitiveArrayCritical true,
         Event.memcpyIntoNative arr.length, Event.releasePrimitiveArrayCritical JNI_ABORT] ∧
      throws r.env.log = throws env.log ∧
      r.nativeObject = some buf ∧
      buf.length = arr.length ∧
      (∀ i, i < arr.length → buf[i]? = arr[i]?) ∧
      r.javaObject = some arr := by
  have hm := memcpy_whole ((List.range arr.length).map uninit) arr (by simp)
  simp [initNativeGenericFixedSize, newArray, GetPrimitiveArrayCritical, hm,
    ReleasePrimitiveArrayCritical, JNIEnv.record, hnew, hcrit, throws]

/-- C2 at the Java array `[1,2,3]`. -/
theorem C2_init_fill_copies_java_contents_witness :
    (JNIEnv.fresh (fun _ => 0)).newSucceeds = true ∧
    (JNIEnv.fresh (fun _ => 0)).criticalSucceeds = true ∧
    ∃ r buf, initNativeGenericFixedSize (fun _ => (0 : Int)) (JNIEnv.fresh (fun _ => 0))
        (some [1, 2, 3]) none true = some r ∧
      r.ret = true ∧
      r.env.pending = (JNIEnv.fresh (fun _ => 0)).pending ∧
      r.env.log = (JNIEnv.fresh (fun _ => 0)).log ++
        [Event.newArray [(1 : Int), 2, 3].length true, Event.getPrimitiveArrayCritical true,
         Event.memcpyIntoNative [(1 : Int), 2, 3].length,
         Event.releasePrimitiveArrayCritical JNI_ABORT] ∧
      throws r.env.log = throws (JNIEnv.fresh (fun _ => 0)).log ∧
      r.nativeObject = some buf ∧
      buf.length = [(1 : Int), 2, 3].length ∧
      (∀ i, i < [(1 : Int), 2, 3].length → buf[i]? = [(1 : Int), 2, 3][i]?) ∧
      r.javaObject = some [1, 2, 3] :=
  ⟨rfl, rfl, C2_init_fill_copies_java_contents (fun _ => (0 : Int))
    (JNIEnv.fresh (fun _ => 0)) [1, 2, 3] none rfl rfl⟩

/-- C5 (evaluation at the failing input): `releaseNativeGenericFixedSize` with an absent
native pointer, the Java array `[1,2,3]` and `writeBack = true`.  There is no null check
on the native pointer, so the `memcpy` of three elements goes through `nullptr`:
undefined behaviour, not a no-op that returns `true`. -/
theorem C5_release_fixed_size_null_pointer_memcpy :
    releaseNativeGenericFixedSize (JNIEnv.fresh (fun _ => 0))
      (none : Option (List Int)) (some [1, 2, 3]) true = none := by
  rfl

/-- C7: with a native handle array present and the object array absent,
`releaseNativeGenericNativePointerObject` returns `false`, throws
`java/lang/NullPointerException` with the message `Trying to write to 'null' array`
and leaves the native pointer absent, after deleting the array, for either value of
`writeBack`; `releaseNativeGenericFixedSize` with the Java array absent returns `true`,
throws nothing and leaves the native pointer absent. -/
theorem C7_release_with_absent_java_array {H α : Type} (toJlong : H → Int) (env : JNIEnv)
    (buf : List H) (nativeObject : Option (List α)) (writeBack : Bool) :
    (∃ r, releaseNativeGenericNativePointerObject toJlong env (some buf) none writeBack
        = some r ∧
      r.ret = false ∧
      r.env.pending = some ⟨"java/lang/NullPointerException",
        "Trying to write to 'null' array"⟩ ∧
      r.env.log = env.log ++ [Event.deleteArray,
        Event.throwByName "java/lang/NullPointerException"
          "Trying to write to 'null' array"] ∧
      r.objects_native = none) ∧
    (∃ r, releaseNativeGenericFixedSize env nativeObject none writeBack = some r ∧
      r.ret = true ∧
      r.env.pending = env.pending ∧
      throws r.env.log = throws env.log ∧
      r.env.log = env.log ++ (if nativeObject.isSome then [Event.deleteArray] else []) ∧
      r.nativeObject = none) := by
  constructor
  · simp [releaseNativeGenericNativePointerObject, ThrowByName, deleteArray,
      JNIEnv.record]
  · cases nativeObject <;>
      simp [releaseNativeGenericFixedSize, deleteArray, JNIEnv.record, throws]

/-- C8: for a Java array `arr` that is not `null` and the allocation succeeding,
`initNativeGenericFixedSize` with `fill = false` and then
`releaseNativeGenericFixedSize` with `writeBack = false` both return `true` and raise
nothing; the only calls made are the allocation and the deletion (no critical view is
obtained, nothing is copied), the contents of the Java array stay `arr`, and the native
pointer is absent after the release. -/
theorem C8_init_release_without_copy {α : Type} (uninit : Nat → α) (env : JNIEnv)
    (arr : List α) (nativeObject : Option (List α)) (hnew : env.newSucceeds = true) :
    ∃ r1 r2, initNativeGenericFixedSize uninit env (some arr) nativeObject false = some r1 ∧
      r1.ret = true ∧
      r1.env.pending = env.pending ∧
      r1.env.log = env.log ++ [Event.newArray arr.length true] ∧
      r1.nativeObject.isSome = true ∧
      r1.javaObject = some arr ∧
      releaseNativeGenericFixedSize r1.env r1.nativeObject r1.javaObject false = some r2 ∧
      r2.ret = true ∧
      r2.env.pending = env.pending ∧
      r2.env.log = env.log ++ [Event.newArray arr.length true, Event.deleteArray] ∧
      throws r2.env.log = throws env.log ∧
      r2.javaObject = some arr ∧
      r2.nativeObject = none := by
  simp [initNativeGenericFixedSize, releaseNativeGenericFixedSize, newArray, deleteArray,
    JNIEnv.record, hnew, throws]

/-- C8 at the Java array `[1,2,3]`. -/
theorem C8_init_release_without_copy_witness :
    (JNIEnv.fresh (fun _ => 0)).newSucceeds = true ∧
    ∃ r1 r2, initNativeGenericFixedSize (fun _ => (0 : Int)) (JNIEnv.fresh (fun _ => 0))
        (some [1, 2, 3]) none false = some r1 ∧
      r1.ret = true ∧
      r1.env.pending = (JNIEnv.fresh (fun _ => 0)).pending ∧
      r1.env.log = (JNIEnv.fresh (fun _ => 0)).log ++
        [Event.newArray [(1 : Int), 2, 3].length true] ∧
      r1.nativeObject.isSome = true ∧
      r1.javaObject = some [1, 2, 3] ∧
      releaseNativeGenericFixedSize r1.env r1.nativeObject r1.javaObject false = some r2 ∧
      r2.ret = true ∧
      r2.env.pending = (JNIEnv.fresh (fun _ => 0)).pending ∧
      r2.env.log = (JNIEnv.fresh (fun _ => 0)).log ++
        [Event.newArray [(1 : Int), 2, 3].length true, Event.deleteArray] ∧
      throws r2.env.log = throws (JNIEnv.fresh (fun _ => 0)).log ∧
      r2.javaObject = some [1, 2, 3] ∧
      r2.nativeObject = none :=
  ⟨rfl, C8_init_release_without_copy (fun _ => (0 : Int)) (JNIEnv.fresh (fun _ => 0))
    [1, 2, 3] none rfl⟩

/-- C9: with the Java array (or object array) absent, both acquire operations return
`true` with the native pointer absent and the environment exactly as it was (nothing
thrown, nothing allocated, no call made at all), for either value of `fill` and whatever
the native pointer held on entry. -/
theorem C9_init_with_absent_java_array {H α : Type} (toNative : Int → H)
    (uninitH : Nat → H) (uninit : Nat → α) (env : JNIEnv)
    (nativeObject : Option (List α)) (objects_native : Option (List H)) (fill : Bool) :
    (∃ r, initNativeGenericFixedSize uninit env none nativeObject fill = some r ∧
      r.ret = true ∧ r.env = env ∧ r.nativeObject = none ∧ r.javaObject = none ∧
      allocations r.env.log = allocations env.log ∧ throws r.env.log = throws env.log) ∧
    (∃ r, initNativeGenericNativePointerObject toNative uninitH env none objects_native fill
        = some r ∧
      r.ret = true ∧ r.env = env ∧ r.objects_native = none ∧
      allocations r.env.log = allocations env.log ∧ throws r.env.log = throws env.log) := by
  constructor
  · exact ⟨_, rfl, rfl, rfl, rfl, rfl, rfl, rfl⟩
  · exact ⟨_, rfl, rfl, rfl, rfl, rfl, rfl⟩

/-! ## Handle arrays -/

/-- In an object array without `null` no index holds `null`. -/
theorem ne_null_of_not_mem (objs : List (Option Nat)) (h : none ∉ objs) (j : Nat) :
    objs[j]? ≠ some none := by
  intro hj
  exact h (List.getElem?_mem hj)

/-- C3 (counterexample): the object array holds the same object `7` at both indices and
the native array is `[0xAAA, 0xBBB]`.  The release with `writeBack = true` returns
`true`, but the handle field of the object at index `0` ends as `0xBBB`, the handle at
index `1`, and not as the handle `0xAAA` at index `0`. -/
theorem C3_counterexample_object_at_two_indices :
    GetObjectArrayElement [some 7, some 7] 0 = some 7 ∧
    [(0xAAA : Int), 0xBBB][0]? = some 0xAAA ∧
    (releaseNativeGenericNativePointerObject (fun v : Int => v) (JNIEnv.fresh (fun _ => 0))
        (some [0xAAA, 0xBBB]) (some [some 7, some 7]) true).map
      (fun r => (r.ret, r.objects_native, r.env.pending, r.env.nativePointer 7))
      = some (true, none, none, 0xBBB) ∧
    (0xBBB : Int) ≠ 0xAAA := by
  decide

/-- C3 (amended): for an object array without `null` element, nothing pending and a
native handle array of the same length, `releaseNativeGenericNativePointerObject` with
`writeBack = true` returns `true`, raises nothing, leaves the native pointer absent, and
the handle field of the object at index `i` equals the `i`-th native handle for every
index `i` after which that object does not occur again (every index, when the objects
are pairwise distinct). -/
theorem C3_release_writeBack_sets_handle_fields {H : Type} (toJlong : H → Int)
    (env : JNIEnv) (objs : List (Option Nat)) (buf : List H)
    (hpresent : none ∉ objs) (hp : env.pending = none)
    (hlen : buf.length = objs.length) :
    ∃ r, releaseNativeGenericNativePointerObject toJlong env (some buf) (some objs) true
        = some r ∧
      r.ret = true ∧
      r.env.pending = none ∧
      throws r.env.log = throws env.log ∧
      r.objects_native = none ∧
      ∀ (i o : Nat) (v : H), objs[i]? = some (some o) → buf[i]? = some v →
        (∀ j : Nat, i < j → objs[j]? ≠ some (some o)) →
        r.env.nativePointer o = toJlong v := by
  obtain ⟨r, evs, hr, hret, hpend, hnat, hlog, ha, hd, ht, hset, hkeep, hlast⟩ :=
    releaseWriteBackLoop_spec toJlong objs buf objs.length hlen le_rfl (Or.inl rfl)
      objs.length 0 env (by omega) (by omega) hp
      (fun j _ _ => ne_null_of_not_mem objs hpresent j)
  refine ⟨r, by simpa [releaseNativeGenericNativePointerObject] using hr,
    by simpa using hret, by simpa using hpend, ?_, hnat, ?_⟩
  · rw [hlog, throws_append, ht]
    simp
  · intro i o v ho hv hlater
    have hi : i < objs.length := by
      by_contra hge
      rw [List.getElem?_eq_none (by omega)] at ho
      cases ho
    exact hlast i o v (by omega) hi ho hv (fun j hj _ => hlater j hj)

/-- C3 (amended) at two distinct objects and the native handles `[0xAAA, 0xBBB]`. -/
theorem C3_release_writeBack_sets_handle_fields_witness :
    none ∉ [some 0, some 1] ∧ (JNIEnv.fresh (fun _ => 0)).pending = none ∧
    [(0xAAA : Int), 0xBBB].length = [some 0, some 1].length ∧
    ∃ r, releaseNativeGenericNativePointerObject (fun v : Int => v)
        (JNIEnv.fresh (fun _ => 0)) (some [0xAAA, 0xBBB]) (some [some 0, some 1]) true
        = some r ∧
      r.ret = true ∧
      r.env.pending = none ∧
      throws r.env.log = throws (JNIEnv.fresh (fun _ => 0)).log ∧
      r.objects_native = none ∧
      ∀ (i o : Nat) (v : Int), [some 0, some 1][i]? = some (some o) →
        [(0xAAA : Int), 0xBBB][i]? = some v →
        (∀ j : Nat, i < j → [some 0, some 1][j]? ≠ some (some o)) →
        r.env.nativePointer o = (fun v : Int => v) v :=
  ⟨by decide, rfl, rfl,
    C3_release_writeBack_sets_handle_fields (fun v : Int => v) (JNIEnv.fresh (fun _ => 0))
      [some 0, some 1] [0xAAA, 0xBBB] (by decide) rfl rfl⟩

/-- C4: for an object array without `null` element, nothing pending and the allocation
succeeding, `initNativeGenericNativePointerObject` with `fill = true` returns `true`
with a native array of the same length whose entry `i` is the handle field of the
object at index `i`; the following `releaseNativeGenericNativePointerObject` with
`writeBack = false` returns `true`, leaves the native pointer absent, one array
allocated and one deleted, and every handle field as it was before the acquire. -/
theorem C4_init_fill_then_release_without_writeBack {H : Type} (toNative : Int → H)
    (toJlong : H → Int) (uninit : Nat → H) (env : JNIEnv) (objs : List (Option Nat))
    (objects_native : Option (List H))
    (hpresent : none ∉ objs) (hp : env.pending = none) (hnew : env.newSucceeds = true) :
    ∃ r1 buf r2,
      initNativeGenericNativePointerObject toNative uninit env (some objs) objects_native
        true = some r1 ∧
      r1.ret = true ∧
      r1.env.pending = none ∧
      r1.objects_native = some buf ∧
      buf.length = objs.length ∧
      (∀ (i o : Nat), objs[i]? = some (some o) →
        buf[i]? = some (toNative (env.nativePointer o))) ∧
      releaseNativeGenericNativePointerObject toJlong r1.env r1.objects_native (some objs)
        false = some r2 ∧
      r2.ret = true ∧
      r2.env.pending = none ∧
      r2.objects_native = none ∧
      allocations r2.env.log = allocations env.log + 1 ∧
      deallocations r2.env.log = deallocations env.log + 1 ∧
      (∀ o, r2.env.nativePointer o = env.nativePointer o) := by
  obtain ⟨r, evs, hr, hret, hpend, hnp, hlog, ha, hd, ht, hfail, hok⟩ :=
    initFillLoop_spec toNative objs objs.length le_rfl (Or.inl rfl) objs.length 0
      (env.record (Event.newArray objs.length env.newSucceeds))
      ((List.range objs.length).map uninit) (by omega) (by omega)
      (by simpa [JNIEnv.record] using hp) (by simp)
      (fun j _ _ => ne_null_of_not_mem objs hpresent j)
  obtain ⟨out, hout, houtlen, hbefore, hafter⟩ := hok rfl
  refine ⟨r, out, ⟨true, deleteArray r.env (some out), none⟩,
    by simpa [initNativeGenericNativePointerObject, newArray, hnew] using hr,
    by simpa using hret, by simpa using hpend, hout, houtlen, ?_, ?_, rfl, ?_, rfl, ?_,
    ?_, ?_⟩
  · intro i o ho
    simpa [JNIEnv.record] using hafter i o (by omega) ho
  · simp [releaseNativeGenericNativePointerObject, hout]
  · simpa [deleteArray, JNIEnv.record] using hpend
  · have hl : (deleteArray r.env (some out)).log =
        env.log ++ [Event.newArray objs.length true] ++ evs ++ [Event.deleteArray] := by
      simp [deleteArray, JNIEnv.record, hlog, hnew]
    rw [hl]
    simp only [allocations_append, ha]
    simp [allocations]
  · have hl : (deleteArray r.env (some out)).log =
        env.log ++ [Event.newArray objs.length true] ++ evs ++ [Event.deleteArray] := by
      simp [deleteArray, JNIEnv.record, hlog, hnew]
    rw [hl]
    simp only [deallocations_append, hd]
    simp [deallocations]
  · intro o
    simp [deleteArray, JNIEnv.record, hnp]

/-- C4 at two objects with the handles `[0xAAA, 0xBBB]`. -/
theorem C4_init_fill_then_release_without_writeBack_witness :
    none ∉ [some 0, some 1] ∧
    (JNIEnv.fresh (fun o => if o = 0 then 0xAAA else 0xBBB)).pending = none ∧
    (JNIEnv.fresh (fun o => if o = 0 then 0xAAA else 0xBBB)).newSucceeds = true ∧
    ∃ r1 buf r2,
      initNativeGenericNativePointerObject (fun v : Int => v) (fun _ => 0)
        (JNIEnv.fresh (fun o => if o = 0 then 0xAAA else 0xBBB)) (some [some 0, some 1])
        none true = some r1 ∧
      r1.ret = true ∧
      r1.env.pending = none ∧
      r1.objects_native = some buf ∧
      buf.length = [some 0, some 1].length ∧
      (∀ (i o : Nat), [some 0, some 1][i]? = some (some o) →
        buf[i]? = some ((fun v : Int => v)
          ((JNIEnv.fresh (fun o => if o = 0 then 0xAAA else 0xBBB)).nativePointer o))) ∧
      releaseNativeGenericNativePointerObject (fun v : Int => v) r1.env r1.objects_native
        (some [some 0, some 1]) false = some r2 ∧
      r2.ret = true ∧
      r2.env.pending = none ∧
      r2.objects_native = none ∧
      allocations r2.env.log =
        allocations (JNIEnv.fresh (fun o => if o = 0 then 0xAAA else 0xBBB)).log + 1 ∧
      deallocations r2.env.log =
        deallocations (JNIEnv.fresh (fun o => if o = 0 then 0xAAA else 0xBBB)).log + 1 ∧
      (∀ o, r2.env.nativePointer o =
        (JNIEnv.fresh (fun o => if o = 0 then 0xAAA else 0xBBB)).nativePointer o) :=
  ⟨by decide, rfl, rfl,
    C4_init_fill_then_release_without_writeBack (fun v : Int => v) (fun v : Int => v)
      (fun _ => 0) (JNIEnv.fresh (fun o => if o = 0 then 0xAAA else 0xBBB))
      [some 0, some 1] none (by decide) rfl rfl⟩

/-- C6: for an object array whose element at index `k` is `null` while every other
element is present, nothing pending and the allocation succeeding,
`initNativeGenericNativePointerObject` with `fill = true` returns `false`, throws
`java/lang/NullPointerException` (`Array contains 'null' elements`) once, and leaves
the native pointer absent with the one array it allocated deleted again. -/
theorem C6_init_fill_null_element {H : Type} (toNative : Int → H) (uninit : Nat → H)
    (env : JNIEnv) (objs : List (Option Nat)) (objects_native : Option (List H)) (k : Nat)
    (hk : objs[k]? = some none) (hothers : ∀ j : Nat, j ≠ k → objs[j]? ≠ some none)
    (hp : env.pending = none) (hnew : env.newSucceeds = true) :
    ∃ r, initNativeGenericNativePointerObject toNative uninit env (some objs)
        objects_native true = some r ∧
      r.ret = false ∧
      r.env.pending = some ⟨"java/lang/NullPointerException",
        "Array contains 'null' elements"⟩ ∧
      throws r.env.log = throws env.log + 1 ∧
      r.objects_native = none ∧
      allocations r.env.log = allocations env.log + 1 ∧
      deallocations r.env.log = deallocations env.log + 1 := by
  have hkn : k < objs.length := by
    by_contra hge
    rw [List.getElem?_eq_none (by omega)] at hk
    cases hk
  obtain ⟨r, evs, hr, hret, hpend, hnp, hlog, ha, hd, ht, hfail, hok⟩ :=
    initFillLoop_spec toNative objs k (by omega) (Or.inr hk) objs.length 0
      (env.record (Event.newArray objs.length env.newSucceeds))
      ((List.range objs.length).map uninit) (by omega) (by omega)
      (by simpa [JNIEnv.record] using hp) (by simp)
      (fun j _ hjk => hothers j (by omega))
  have hne : k ≠ objs.length := by omega
  have hl : r.env.log = env.log ++ [Event.newArray objs.length true] ++ evs := by
    simp [JNIEnv.record, hlog, hnew]
  refine ⟨r, by simpa [initNativeGenericNativePointerObject, newArray, hnew] using hr,
    by simpa [hne] using hret, by simpa [hne, nullElement] using hpend, ?_, hfail hkn,
    ?_, ?_⟩
  · rw [hl]
    simp only [throws_append, ht, if_neg hne]
    simp [throws]
  · rw [hl]
    simp only [allocations_append, ha]
    simp [allocations]
  · rw [hl]
    simp only [deallocations_append, hd, if_neg hne]
    simp [deallocations]

/-- C6 at an array of three elements whose middle one is `null`. -/
theorem C6_init_fill_null_element_witness :
    [some 0, none, some 2][1]? = some none ∧
    (∀ j : Nat, j ≠ 1 → [some 0, none, some 2][j]? ≠ some none) ∧
    (JNIEnv.fresh (fun _ => 0)).pending = none ∧
    (JNIEnv.fresh (fun _ => 0)).newSucceeds = true ∧
    ∃ r, initNativeGenericNativePointerObject (fun v : Int => v) (fun _ => 0)
        (JNIEnv.fresh (fun _ => 0)) (some [some 0, none, some 2]) none true = some r ∧
      r.ret = false ∧
      r.env.pending = some ⟨"java/lang/NullPointerException",
        "Array contains 'null' elements"⟩ ∧
      throws r.env.log = throws (JNIEnv.fresh (fun _ => 0)).log + 1 ∧
      r.objects_native = none ∧
      allocations r.env.log = allocations (JNIEnv.fresh (fun _ => 0)).log + 1 ∧
      deallocations r.env.log = deallocations (JNIEnv.fresh (fun _ => 0)).log + 1 :=
  have hothers : ∀ j : Nat, j ≠ 1 → [some 0, none, some 2][j]? ≠ some none := by
    intro j hj
    match j, hj with
    | 0, _ => decide
    | 1, h => exact absurd rfl h
    | 2, _ => decide
    | _ + 3, _ => simp
  ⟨rfl, hothers, rfl, rfl,
    C6_init_fill_null_element (fun v : Int => v) (fun _ => 0) (JNIEnv.fresh (fun _ => 0))
      [some 0, none, some 2] none 1 rfl hothers rfl rfl⟩

/-- C10: for an object array whose first `null` element is at index `k`, nothing
pending and a native handle array of the same length,
`releaseNativeGenericNativePointerObject` with `writeBack = true` returns `false`,
throws `java/lang/NullPointerException` and leaves the native pointer absent, the array
deleted.  All the same, for every index `i < k` the call `SetLongField` has been made
on the object at index `i` with the `i`-th native handle, and that handle is what the
field still holds unless the same object occurs again between `i` and `k`; an object
that occurs at no index below `k` keeps its handle field. -/
theorem C10_release_writeBack_stops_at_first_null {H : Type} (toJlong : H → Int)
    (env : JNIEnv) (objs : List (Option Nat)) (buf : List H) (k : Nat)
    (hk : objs[k]? = some none) (hfirst : ∀ j : Nat, j < k → objs[j]? ≠ some none)
    (hp : env.pending = none) (hlen : buf.length = objs.length) :
    ∃ r evs, releaseNativeGenericNativePointerObject toJlong env (some buf) (some objs) true
        = some r ∧
      r.ret = false ∧
      r.env.pending = some ⟨"java/lang/NullPointerException",
        "Array contains 'null' elements"⟩ ∧
      r.objects_native = none ∧
      r.env.log = env.log ++ evs ∧
      deallocations evs = 1 ∧
      (∀ (i o : Nat) (v : H), i < k → objs[i]? = some (some o) → buf[i]? = some v →
        Event.setLongField o (toJlong v) ∈ evs) ∧
      (∀ (i o : Nat) (v : H), i < k → objs[i]? = some (some o) → buf[i]? = some v →
        (∀ j : Nat, i < j → j < k → objs[j]? ≠ some (some o)) →
        r.env.nativePointer o = toJlong v) ∧
      (∀ o : Nat, (∀ j : Nat, j < k → objs[j]? ≠ some (some o)) →
        r.env.nativePointer o = env.nativePointer o) := by
  have hkn : k < objs.length := by
    by_contra hge
    rw [List.getElem?_eq_none (by omega)] at hk
    cases hk
  obtain ⟨r, evs, hr, hret, hpend, hnat, hlog, ha, hd, ht, hset, hkeep, hlast⟩ :=
    releaseWriteBackLoop_spec toJlong objs buf k hlen (by omega) (Or.inr hk)
      objs.length 0 env (by omega) (by omega) hp (fun j _ hjk => hfirst j hjk)
  have hne : k ≠ objs.length := by omega
  refine ⟨r, evs, by simpa [releaseNativeGenericNativePointerObject] using hr,
    by simpa [hne] using hret, by simpa [hne, nullElement] using hpend, hnat, hlog, hd,
    ?_, ?_, ?_⟩
  · intro i o v hik ho hv
    exact hset i o v (by omega) hik ho hv
  · intro i o v hik ho hv hlater
    exact hlast i o v (by omega) hik ho hv hlater
  · intro o habs
    exact hkeep o (fun j _ hjk => habs j hjk)

/-- C10 at the objects `[5, 6, null, 8]` and the native handles `[0xA, 0xB, 0xC, 0xD]`. -/
theorem C10_release_writeBack_stops_at_first_null_witness :
    [some 5, some 6, none, some 8][2]? = some none ∧
    (∀ j : Nat, j < 2 → [some 5, some 6, none, some 8][j]? ≠ some none) ∧
    (JNIEnv.fresh (fun _ => 0)).pending = none ∧
    [(0xA : Int), 0xB, 0xC, 0xD].length = [some 5, some 6, none, some 8].length ∧
    ∃ r evs, releaseNativeGenericNativePointerObject (fun v : Int => v)
        (JNIEnv.fresh (fun _ => 0)) (some [0xA, 0xB, 0xC, 0xD])
        (some [some 5, some 6, none, some 8]) true = some r ∧
      r.ret = false ∧
      r.env.pending = some ⟨"java/lang/NullPointerException",
        "Array contains 'null' elements"⟩ ∧
      r.objects_native = none ∧
      r.env.log = (JNIEnv.fresh (fun _ => 0)).log ++ evs ∧
      deallocations evs = 1 ∧
      (∀ (i o : Nat) (v : Int), i < 2 → [some 5, some 6, none, some 8][i]? = some (some o) →
        [(0xA : Int), 0xB, 0xC, 0xD][i]? = some v →
        Event.setLongField o ((fun v : Int => v) v) ∈ evs) ∧
      (∀ (i o : Nat) (v : Int), i < 2 → [some 5, some 6, none, some 8][i]? = some (some o) →
        [(0xA : Int), 0xB, 0xC, 0xD][i]? = some v →
        (∀ j : Nat, i < j → j < 2 → [some 5, some 6, none, some 8][j]? ≠ some (some o)) →
        r.env.nativePointer o = (fun v : Int => v) v) ∧
      (∀ o : Nat, (∀ j : Nat, j < 2 → [some 5, some 6, none, some 8][j]? ≠ some (some o)) →
        r.env.nativePointer o = (JNIEnv.fresh (fun _ => 0)).nativePointer o) :=
  have hfirst : ∀ j : Nat, j < 2 → [some 5, some 6, none, some 8][j]? ≠ some none := by
    intro j hj
    match j, hj with
    | 0, _ => decide
    | 1, _ => decide
  ⟨rfl, hfirst, rfl, rfl,
    C10_release_writeBack_stops_at_first_null (fun v : Int => v) (JNIEnv.fresh (fun _ => 0))
      [some 5, some 6, none, some 8] [0xA, 0xB, 0xC, 0xD] 2 rfl hfirst rfl rfl⟩

end JOCL
